import Mathlib

/-!
Shallow embedding of the performance-metrics collector of
`web/components/shared/performance/PerformanceMonitor.tsx` and of the
state-propagation hooks of `web/hooks/useOptimizedState.tsx`.

Numeric metric values (milliseconds, CLS scores, transfer sizes) are modelled
as rationals.  Optional snapshot fields are `Option ℚ`; the JavaScript
truthiness test `metrics.x && metrics.x > t` on such a field is modelled
explicitly by `truthyNum` (absent or zero is falsy).  Fields of the source
record that no claim touches (`totalBlockingTime`, `timeToInteractive`,
`navigationTiming`) are omitted from the embedding.
-/

namespace PerfMon

structure ResourceEntry where
  name : String
  transferSize : ℤ
deriving DecidableEq

structure PerformanceMetrics where
  firstContentfulPaint : Option ℚ := none
  largestContentfulPaint : Option ℚ := none
  firstInputDelay : Option ℚ := none
  cumulativeLayoutShift : Option ℚ := none
  resourceTiming : Option (List ResourceEntry) := none

/-- JavaScript truthiness of an optional numeric value: `undefined` and `0`
are falsy, every other number is truthy. -/
def truthyNum : Option ℚ → Bool
  | none => false
  | some v => v != 0

/-- The comparison `x > t` on an optional numeric value (`undefined > t` is
false in JavaScript). -/
def numGt (x : Option ℚ) (t : ℚ) : Bool :=
  match x with
  | none => false
  | some v => t < v

/-- Transliteration of `calculatePerformanceScore`: start at 100, deduct per
metric with the poor tier checked first, clamp at 0 via `Math.max`. -/
def calculatePerformanceScore (metrics : PerformanceMetrics) : ℤ :=
  let score : ℤ := 100
  let score :=
    if truthyNum metrics.firstContentfulPaint && numGt metrics.firstContentfulPaint 1800 then
      score - 15
    else if truthyNum metrics.firstContentfulPaint && numGt metrics.firstContentfulPaint 1000 then
      score - 5
    else score
  let score :=
    if truthyNum metrics.largestContentfulPaint && numGt metrics.largestContentfulPaint 4000 then
      score - 20
    else if truthyNum metrics.largestContentfulPaint && numGt metrics.largestContentfulPaint 2500 then
      score - 10
    else score
  let score :=
    if truthyNum metrics.firstInputDelay && numGt metrics.firstInputDelay 300 then
      score - 15
    else if truthyNum metrics.firstInputDelay && numGt metrics.firstInputDelay 100 then
      score - 5
    else score
  let score :=
    if truthyNum metrics.cumulativeLayoutShift && numGt metrics.cumulativeLayoutShift 0.25 then
      score - 20
    else if truthyNum metrics.cumulativeLayoutShift && numGt metrics.cumulativeLayoutShift 0.1 then
      score - 10
    else score
  max 0 score

/-- Deduction contributed by the FCP branch of `calculatePerformanceScore`. -/
def fcpDeduction (x : Option ℚ) : ℤ :=
  if truthyNum x && numGt x 1800 then 15 else if truthyNum x && numGt x 1000 then 5 else 0

/-- Deduction contributed by the LCP branch of `calculatePerformanceScore`. -/
def lcpDeduction (x : Option ℚ) : ℤ :=
  if truthyNum x && numGt x 4000 then 20 else if truthyNum x && numGt x 2500 then 10 else 0

/-- Deduction contributed by the FID branch of `calculatePerformanceScore`. -/
def fidDeduction (x : Option ℚ) : ℤ :=
  if truthyNum x && numGt x 300 then 15 else if truthyNum x && numGt x 100 then 5 else 0

/-- Deduction contributed by the CLS branch of `calculatePerformanceScore`. -/
def clsDeduction (x : Option ℚ) : ℤ :=
  if truthyNum x && numGt x 0.25 then 20 else if truthyNum x && numGt x 0.1 then 10 else 0

/-- The score before the final `Math.max(0, score)` clamp. -/
def rawScore (m : PerformanceMetrics) : ℤ :=
  100 - fcpDeduction m.firstContentfulPaint - lcpDeduction m.largestContentfulPaint
    - fidDeduction m.firstInputDelay - clsDeduction m.cumulativeLayoutShift

theorem sub_tier (s : ℤ) (b1 b2 : Bool) (p q : ℤ) :
    (if b1 then s - p else if b2 then s - q else s)
      = s - (if b1 then p else if b2 then q else 0) := by
  cases b1 <;> cases b2 <;> simp

theorem calculatePerformanceScore_eq (m : PerformanceMetrics) :
    calculatePerformanceScore m = max 0 (rawScore m) := by
  unfold calculatePerformanceScore rawScore fcpDeduction lcpDeduction fidDeduction clsDeduction
  dsimp only
  rw [sub_tier, sub_tier, sub_tier, sub_tier]

theorem fcpDeduction_bounds (x : Option ℚ) : 0 ≤ fcpDeduction x ∧ fcpDeduction x ≤ 15 := by
  unfold fcpDeduction; split <;> [skip; split] <;> omega

theorem lcpDeduction_bounds (x : Option ℚ) : 0 ≤ lcpDeduction x ∧ lcpDeduction x ≤ 20 := by
  unfold lcpDeduction; split <;> [skip; split] <;> omega

theorem fidDeduction_bounds (x : Option ℚ) : 0 ≤ fidDeduction x ∧ fidDeduction x ≤ 15 := by
  unfold fidDeduction; split <;> [skip; split] <;> omega

theorem clsDeduction_bounds (x : Option ℚ) : 0 ≤ clsDeduction x ∧ clsDeduction x ≤ 20 := by
  unfold clsDeduction; split <;> [skip; split] <;> omega

/-- Because every deduction threshold is positive, the truthiness conjunct in
each tier test is redundant and the tests reduce to plain comparisons. -/
theorem truthy_and_gt {v t : ℚ} (ht : 0 < t) :
    (truthyNum (some v) && numGt (some v) t) = decide (t < v) := by
  by_cases h : t < v
  · have hv : v ≠ 0 := ne_of_gt (ht.trans h)
    simp [truthyNum, numGt, h, hv]
  · simp [truthyNum, numGt, h]

theorem fcpDeduction_some (v : ℚ) :
    fcpDeduction (some v) = if 1800 < v then 15 else if 1000 < v then 5 else 0 := by
  unfold fcpDeduction
  rw [truthy_and_gt (by norm_num), truthy_and_gt (by norm_num)]
  by_cases h1 : (1800 : ℚ) < v <;> by_cases h2 : (1000 : ℚ) < v <;> simp [h1, h2]

theorem lcpDeduction_some (v : ℚ) :
    lcpDeduction (some v) = if 4000 < v then 20 else if 2500 < v then 10 else 0 := by
  unfold lcpDeduction
  rw [truthy_and_gt (by norm_num), truthy_and_gt (by norm_num)]
  by_cases h1 : (4000 : ℚ) < v <;> by_cases h2 : (2500 : ℚ) < v <;> simp [h1, h2]

theorem fidDeduction_some (v : ℚ) :
    fidDeduction (some v) = if 300 < v then 15 else if 100 < v then 5 else 0 := by
  unfold fidDeduction
  rw [truthy_and_gt (by norm_num), truthy_and_gt (by norm_num)]
  by_cases h1 : (300 : ℚ) < v <;> by_cases h2 : (100 : ℚ) < v <;> simp [h1, h2]

theorem clsDeduction_some (v : ℚ) :
    clsDeduction (some v) = if 0.25 < v then 20 else if 0.1 < v then 10 else 0 := by
  unfold clsDeduction
  rw [truthy_and_gt (by norm_num), truthy_and_gt (by norm_num)]
  by_cases h1 : (0.25 : ℚ) < v <;> by_cases h2 : (0.1 : ℚ) < v <;> simp [h1, h2]

theorem fcpDeduction_mono {v w : ℚ} (h : v ≤ w) :
    fcpDeduction (some v) ≤ fcpDeduction (some w) := by
  rw [fcpDeduction_some, fcpDeduction_some]
  split_ifs <;> linarith

theorem lcpDeduction_mono {v w : ℚ} (h : v ≤ w) :
    lcpDeduction (some v) ≤ lcpDeduction (some w) := by
  rw [lcpDeduction_some, lcpDeduction_some]
  split_ifs <;> linarith

theorem fidDeduction_mono {v w : ℚ} (h : v ≤ w) :
    fidDeduction (some v) ≤ fidDeduction (some w) := by
  rw [fidDeduction_some, fidDeduction_some]
  split_ifs <;> linarith

theorem clsDeduction_mono {v w : ℚ} (h : v ≤ w) :
    clsDeduction (some v) ≤ clsDeduction (some w) := by
  rw [clsDeduction_some, clsDeduction_some]
  split_ifs <;> linarith

theorem rawScore_bounds (m : PerformanceMetrics) : 30 ≤ rawScore m ∧ rawScore m ≤ 100 := by
  have h1 := fcpDeduction_bounds m.firstContentfulPaint
  have h2 := lcpDeduction_bounds m.largestContentfulPaint
  have h3 := fidDeduction_bounds m.firstInputDelay
  have h4 := clsDeduction_bounds m.cumulativeLayoutShift
  unfold rawScore
  omega

end PerfMon

namespace PerfMon

/-- C1: the score calculator applies at most one deduction tier per metric,
checking the poor threshold first — whenever a metric exceeds its poor
threshold exactly the poor penalty is charged for it, never additionally the
needs-improvement penalty — the total score is 100 minus the four independent
per-metric deductions (clamped at 0), and on the snapshot FCP 2000, LCP 3000,
FID 50, CLS 0.05 the computed score is 75 (15 for poor FCP plus 10 for
needs-improvement LCP, nothing for FID or CLS). -/
theorem score_poor_tier_exclusive_and_example :
    (∀ v : ℚ, 1800 < v → fcpDeduction (some v) = 15)
    ∧ (∀ v : ℚ, 4000 < v → lcpDeduction (some v) = 20)
    ∧ (∀ v : ℚ, 300 < v → fidDeduction (some v) = 15)
    ∧ (∀ v : ℚ, 0.25 < v → clsDeduction (some v) = 20)
    ∧ (∀ m : PerformanceMetrics, calculatePerformanceScore m = max 0 (100
        - fcpDeduction m.firstContentfulPaint - lcpDeduction m.largestContentfulPaint
        - fidDeduction m.firstInputDelay - clsDeduction m.cumulativeLayoutShift))
    ∧ calculatePerformanceScore
        { firstContentfulPaint := some 2000, largestContentfulPaint := some 3000,
          firstInputDelay := some 50, cumulativeLayoutShift := some 0.05 } = 75 := by
  refine ⟨?_, ?_, ?_, ?_, ?_, ?_⟩
  · intro v h; rw [fcpDeduction_some, if_pos h]
  · intro v h; rw [lcpDeduction_some, if_pos h]
  · intro v h; rw [fidDeduction_some, if_pos h]
  · intro v h; rw [clsDeduction_some, if_pos h]
  · intro m; exact calculatePerformanceScore_eq m
  · norm_num [calculatePerformanceScore, truthyNum, numGt]

theorem score_poor_tier_exclusive_and_example_witness :
    (1800 : ℚ) < 2000 ∧ fcpDeduction (some 2000) = 15 :=
  ⟨by decide, score_poor_tier_exclusive_and_example.1 2000 (by decide)⟩

/-- C2: for every snapshot the computed score is an integer in [0, 100]; a
metric that is unset contributes no deduction; and, holding the other metrics
fixed, worsening (increasing) any single metric value never increases the
score. -/
theorem score_bounded_and_monotone :
    (∀ m : PerformanceMetrics,
        0 ≤ calculatePerformanceScore m ∧ calculatePerformanceScore m ≤ 100)
    ∧ (fcpDeduction none = 0 ∧ lcpDeduction none = 0 ∧ fidDeduction none = 0
        ∧ clsDeduction none = 0)
    ∧ (∀ (m : PerformanceMetrics) (v w : ℚ), v ≤ w →
        calculatePerformanceScore { m with firstContentfulPaint := some w }
          ≤ calculatePerformanceScore { m with firstContentfulPaint := some v })
    ∧ (∀ (m : PerformanceMetrics) (v w : ℚ), v ≤ w →
        calculatePerformanceScore { m with largestContentfulPaint := some w }
          ≤ calculatePerformanceScore { m with largestContentfulPaint := some v })
    ∧ (∀ (m : PerformanceMetrics) (v w : ℚ), v ≤ w →
        calculatePerformanceScore { m with firstInputDelay := some w }
          ≤ calculatePerformanceScore { m with firstInputDelay := some v })
    ∧ (∀ (m : PerformanceMetrics) (v w : ℚ), v ≤ w →
        calculatePerformanceScore { m with cumulativeLayoutShift := some w }
          ≤ calculatePerformanceScore { m with cumulativeLayoutShift := some v }) := by
  refine ⟨?_, ⟨rfl, rfl, rfl, rfl⟩, ?_, ?_, ?_, ?_⟩
  · intro m
    rw [calculatePerformanceScore_eq]
    have h := rawScore_bounds m
    exact ⟨le_max_left 0 _, max_le (by norm_num) h.2⟩
  · intro m v w h
    rw [calculatePerformanceScore_eq, calculatePerformanceScore_eq]
    unfold rawScore
    dsimp only
    have h1 := fcpDeduction_mono h
    refine max_le_max le_rfl ?_
    omega
  · intro m v w h
    rw [calculatePerformanceScore_eq, calculatePerformanceScore_eq]
    unfold rawScore
    dsimp only
    have h1 := lcpDeduction_mono h
    refine max_le_max le_rfl ?_
    omega
  · intro m v w h
    rw [calculatePerformanceScore_eq, calculatePerformanceScore_eq]
    unfold rawScore
    dsimp only
    have h1 := fidDeduction_mono h
    refine max_le_max le_rfl ?_
    omega
  · intro m v w h
    rw [calculatePerformanceScore_eq, calculatePerformanceScore_eq]
    unfold rawScore
    dsimp only
    have h1 := clsDeduction_mono h
    refine max_le_max le_rfl ?_
    omega

theorem score_bounded_and_monotone_witness :
    (1500 : ℚ) ≤ 2000 ∧
      calculatePerformanceScore { firstContentfulPaint := some 2000 }
        ≤ calculatePerformanceScore { firstContentfulPaint := some 1500 } :=
  ⟨by decide, score_bounded_and_monotone.2.2.1 {} 1500 2000 (by decide)⟩

/-- C10: the computed score is always at least 30 — the worst-case total
deduction is 15 + 20 + 15 + 20 = 70 from a starting score of 100 — so the
final `Math.max(0, score)` clamp never changes the result and the score never
reaches the stated minimum of 0. -/
theorem score_never_below_thirty :
    ∀ m : PerformanceMetrics,
      30 ≤ calculatePerformanceScore m
      ∧ calculatePerformanceScore m = rawScore m
      ∧ 100 - rawScore m ≤ 70 := by
  intro m
  have h := rawScore_bounds m
  have he := calculatePerformanceScore_eq m
  have hm : max 0 (rawScore m) = rawScore m := max_eq_right (by omega)
  refine ⟨?_, by rw [he, hm], by omega⟩
  rw [he, hm]
  exact h.1

end PerfMon

namespace PerfMon

structure LayoutShiftEntry where
  value : ℚ
  hadRecentInput : Bool
deriving DecidableEq

/-- One delivery of the `clsObserver` callback body for a single entry:
`if (!entry.hadRecentInput) clsValue += entry.value`. -/
def clsStep (clsValue : ℚ) (entry : LayoutShiftEntry) : ℚ :=
  if !entry.hadRecentInput then clsValue + entry.value else clsValue

/-- The accumulator `clsValue` (seeded at 0) after the CLS observer has
processed a sequence of layout-shift entries. -/
def clsAfter (entries : List LayoutShiftEntry) : ℚ :=
  entries.foldl clsStep 0

theorem foldl_clsStep (entries : List LayoutShiftEntry) :
    ∀ c : ℚ, entries.foldl clsStep c
      = c + ((entries.filter fun e => !e.hadRecentInput).map LayoutShiftEntry.value).sum := by
  induction entries with
  | nil => intro c; simp
  | cons e rest ih =>
    intro c
    by_cases h : e.hadRecentInput
    · simp [clsStep, h, ih]
    · simp [clsStep, h, ih, add_assoc]

/-- C3: the CLS accumulator equals the sum of `value` over the entries seen so
far whose `hadRecentInput` flag is false; entries with `hadRecentInput = true`
never change it; and for non-negative entry values it is monotonically
non-decreasing. -/
theorem cls_accumulator_spec :
    (∀ entries : List LayoutShiftEntry,
        clsAfter entries
          = ((entries.filter fun e => !e.hadRecentInput).map LayoutShiftEntry.value).sum)
    ∧ (∀ (c : ℚ) (e : LayoutShiftEntry), e.hadRecentInput = true → clsStep c e = c)
    ∧ (∀ (entries : List LayoutShiftEntry) (e : LayoutShiftEntry), 0 ≤ e.value →
        clsAfter entries ≤ clsAfter (entries ++ [e])) := by
  refine ⟨?_, ?_, ?_⟩
  · intro entries
    have h := foldl_clsStep entries 0
    simpa using h
  · intro c e h
    simp [clsStep, h]
  · intro entries e he
    unfold clsAfter
    rw [List.foldl_append]
    by_cases h : e.hadRecentInput <;> simp [clsStep, h]
    linarith

theorem cls_accumulator_spec_witness :
    ((⟨2, true⟩ : LayoutShiftEntry).hadRecentInput = true
      ∧ clsStep 5 ⟨2, true⟩ = 5)
    ∧ ((0 : ℚ) ≤ 3
      ∧ clsAfter [⟨1, false⟩] ≤ clsAfter ([⟨1, false⟩] ++ [⟨3, false⟩])) :=
  ⟨⟨rfl, cls_accumulator_spec.2.1 5 ⟨2, true⟩ rfl⟩,
   ⟨by decide, cls_accumulator_spec.2.2 [⟨1, false⟩] ⟨3, false⟩ (by decide)⟩⟩

end PerfMon

namespace PerfMon

/-- Descending order on resource entries, the order produced by the comparator
`(a, b) => b.transferSize - a.transferSize` of `collectResourceTiming`. -/
def bySizeDesc (x y : ResourceEntry) : Prop := y.transferSize ≤ x.transferSize

instance : DecidableRel bySizeDesc :=
  fun x y => inferInstanceAs (Decidable (y.transferSize ≤ x.transferSize))

instance : IsTotal ResourceEntry bySizeDesc :=
  ⟨fun x y => le_total y.transferSize x.transferSize⟩

instance : IsTrans ResourceEntry bySizeDesc :=
  ⟨fun _ _ _ h1 h2 => le_trans h2 h1⟩

/-- The `largeResources` pipeline of `collectResourceTiming`: filter the
entries with more than 100000 transferred bytes, sort them descending by
transfer size (a stable sort, as JavaScript `Array.prototype.sort`), and keep
the first 10. -/
def largeResources (resourceEntries : List ResourceEntry) : List ResourceEntry :=
  ((resourceEntries.filter fun e => 100000 < e.transferSize).insertionSort bySizeDesc).take 10

/-- One run of `collectResourceTiming` over the current resource-timing
entries: the snapshot's `resourceTiming` field is replaced with the freshly
derived `largeResources` list. -/
def collectResourceTiming (m : PerformanceMetrics) (resourceEntries : List ResourceEntry) :
    PerformanceMetrics :=
  { m with resourceTiming := some (largeResources resourceEntries) }

/-- C9: each collection re-derives `largeResources` from scratch — the result
does not depend on the previous snapshot — as filter (transferred bytes
> 100000), sort descending by transfer size, take the first 10; on transfer
sizes [50000, 150000, 300000, 120000] the retained descending sequence is
[300000, 150000, 120000]. -/
theorem largeResources_filter_sort_take :
    (∀ (m1 m2 : PerformanceMetrics) (entries : List ResourceEntry),
        (collectResourceTiming m1 entries).resourceTiming
          = (collectResourceTiming m2 entries).resourceTiming)
    ∧ (∀ (m : PerformanceMetrics) (entries : List ResourceEntry),
        (collectResourceTiming m entries).resourceTiming = some (largeResources entries))
    ∧ (∀ (entries : List ResourceEntry) (e : ResourceEntry),
        e ∈ largeResources entries → 100000 < e.transferSize)
    ∧ (∀ entries : List ResourceEntry, (largeResources entries).length ≤ 10)
    ∧ (∀ entries : List ResourceEntry, (largeResources entries).Sorted bySizeDesc)
    ∧ (largeResources
        [⟨"a", 50000⟩, ⟨"b", 150000⟩, ⟨"c", 300000⟩, ⟨"d", 120000⟩]).map
          ResourceEntry.transferSize = [300000, 150000, 120000] := by
  refine ⟨fun _ _ _ => rfl, fun _ _ => rfl, ?_, ?_, ?_, ?_⟩
  · intro entries e he
    unfold largeResources at he
    have h1 := List.mem_of_mem_take he
    have h2 := (List.perm_insertionSort bySizeDesc _).subset h1
    have h3 := List.mem_filter.mp h2
    exact of_decide_eq_true h3.2
  · intro entries
    unfold largeResources
    rw [List.length_take]
    omega
  · intro entries
    exact List.Pairwise.sublist (List.take_sublist _ _)
      (List.sorted_insertionSort bySizeDesc _)
  · decide

theorem largeResources_filter_sort_take_witness :
    (⟨"c", 300000⟩ : ResourceEntry) ∈ largeResources
        [⟨"a", 50000⟩, ⟨"b", 150000⟩, ⟨"c", 300000⟩, ⟨"d", 120000⟩]
    ∧ (100000 : ℤ) < 300000 :=
  ⟨by decide,
   largeResources_filter_sort_take.2.2.1
     [⟨"a", 50000⟩, ⟨"b", 150000⟩, ⟨"c", 300000⟩, ⟨"d", 120000⟩]
     ⟨"c", 300000⟩ (by decide)⟩

end PerfMon

namespace PerfMon

structure PaintEntry where
  name : String
  startTime : ℚ
deriving DecidableEq

/-- One callback delivery of the FCP observer:
`entries.find(entry => entry.name === "first-contentful-paint")`, emitting
that entry's `startTime` when one is found. -/
def fcpEmit (entries : List PaintEntry) : Option ℚ :=
  (entries.find? fun e => e.name == "first-contentful-paint").map PaintEntry.startTime

/-- Effect of one delivered batch on the snapshot's `firstContentfulPaint`
field: a found entry overwrites it through `updateMetrics`, otherwise the
field is untouched. -/
def fcpApplyBatch (current : Option ℚ) (batch : List PaintEntry) : Option ℚ :=
  match fcpEmit batch with
  | some v => some v
  | none => current

/-- The `firstContentfulPaint` field after a whole session of batches. -/
def fcpAfterBatches (batches : List (List PaintEntry)) : Option ℚ :=
  batches.foldl fcpApplyBatch none

/-- Number of `updateMetrics({firstContentfulPaint})` emissions over a
session of batches. -/
def fcpEmitCount (batches : List (List PaintEntry)) : Nat :=
  (batches.filter fun b => (fcpEmit b).isSome).length

/-- C5 counterexample: two successive batches each holding an entry named
"first-contentful-paint" (startTime 100, then 250) produce two emissions, and
the second batch overwrites the value — the update is not single-fire across
batches. -/
theorem fcp_not_single_fire :
    fcpEmitCount [[⟨"first-contentful-paint", 100⟩], [⟨"first-contentful-paint", 250⟩]] = 2
    ∧ fcpAfterBatches [[⟨"first-contentful-paint", 100⟩], [⟨"first-contentful-paint", 250⟩]]
        = some 250
    ∧ fcpAfterBatches [[⟨"first-contentful-paint", 100⟩], [⟨"first-contentful-paint", 250⟩]]
        ≠ some 100 := by
  refine ⟨rfl, rfl, ?_⟩
  decide

theorem fcpEmit_append_first : ∀ (pre : List PaintEntry) (post : List PaintEntry)
    (e : PaintEntry), e.name = "first-contentful-paint" →
    (∀ x ∈ pre, x.name ≠ "first-contentful-paint") →
    fcpEmit (pre ++ e :: post) = some e.startTime
  | [], _, e, he, _ => by simp [fcpEmit, he]
  | x :: xs, post, e, he, hpre => by
    have hx : (x.name == "first-contentful-paint") = false :=
      beq_eq_false_iff_ne.mpr (hpre x (List.mem_cons_self x xs))
    have hrest := fcpEmit_append_first xs post e he
      (fun y hy => hpre y (List.mem_cons_of_mem x hy))
    simpa [fcpEmit, List.find?_cons, hx] using hrest

/-- C5 amended: within one batch only the first entry named
"first-contentful-paint" is used and a batch without such an entry leaves the
metric unchanged, but there is no cross-batch single-fire guard — every batch
containing such an entry emits an update that overwrites the previous
value. -/
theorem fcp_first_per_batch_overwrites_across_batches :
    (∀ (pre post : List PaintEntry) (e : PaintEntry),
        e.name = "first-contentful-paint" →
        (∀ x ∈ pre, x.name ≠ "first-contentful-paint") →
        fcpEmit (pre ++ e :: post) = some e.startTime)
    ∧ (∀ (batches : List (List PaintEntry)) (b : List PaintEntry) (v : ℚ),
        fcpEmit b = some v → fcpAfterBatches (batches ++ [b]) = some v)
    ∧ (∀ (batches : List (List PaintEntry)) (b : List PaintEntry),
        fcpEmit b = none → fcpAfterBatches (batches ++ [b]) = fcpAfterBatches batches)
    ∧ (∀ (batches : List (List PaintEntry)) (b : List PaintEntry),
        fcpEmitCount (batches ++ [b])
          = fcpEmitCount batches + (if (fcpEmit b).isSome then 1 else 0)) := by
  refine ⟨fcpEmit_append_first, ?_, ?_, ?_⟩
  · intro batches b v hb
    unfold fcpAfterBatches
    rw [List.foldl_append]
    simp [fcpApplyBatch, hb]
  · intro batches b hb
    unfold fcpAfterBatches
    rw [List.foldl_append]
    simp [fcpApplyBatch, hb]
  · intro batches b
    unfold fcpEmitCount
    rw [List.filter_append]
    by_cases h : (fcpEmit b).isSome <;> simp [h]

theorem fcp_first_per_batch_overwrites_across_batches_witness :
    fcpEmit [⟨"first-contentful-paint", 250⟩] = some 250
    ∧ fcpAfterBatches
        ([[⟨"first-contentful-paint", 100⟩]] ++ [[⟨"first-contentful-paint", 250⟩]])
        = some 250 :=
  ⟨by decide,
   fcp_first_per_batch_overwrites_across_batches.2.1
     [[⟨"first-contentful-paint", 100⟩]] [⟨"first-contentful-paint", 250⟩] 250 (by decide)⟩

end PerfMon

namespace PerfMon

structure FirstInputEntry where
  processingStart : Option ℚ
  startTime : Option ℚ
deriving DecidableEq

/-- One callback delivery of the FID observer: for each entry passing the
guard `entry.processingStart && entry.startTime` (JavaScript truthiness on
both fields), one update `processingStart - startTime` is emitted, in entry
order; all other entries are skipped. -/
def fidUpdates (entries : List FirstInputEntry) : List ℚ :=
  entries.filterMap fun e =>
    if truthyNum e.processingStart && truthyNum e.startTime then
      some (e.processingStart.getD 0 - e.startTime.getD 0)
    else none

/-- C6 counterexample: the entry with `processingStart = 5` and
`startTime = 0` has both fields present, yet no update is emitted for it —
the code's guard is JavaScript truthiness (0 is falsy), not field
presence. -/
theorem fid_present_zero_field_skipped :
    (⟨some 5, some 0⟩ : FirstInputEntry).processingStart.isSome = true
    ∧ (⟨some 5, some 0⟩ : FirstInputEntry).startTime.isSome = true
    ∧ fidUpdates [⟨some 5, some 0⟩] = [] :=
  ⟨rfl, rfl, rfl⟩

theorem fidUpdates_length (entries : List FirstInputEntry) :
    (fidUpdates entries).length
      = entries.countP fun e => truthyNum e.processingStart && truthyNum e.startTime := by
  unfold fidUpdates
  rw [List.length_filterMap_eq_countP]
  apply List.countP_congr
  intro e _
  by_cases h : (truthyNum e.processingStart && truthyNum e.startTime) = true <;> simp [h]

/-- C6 amended: the FID observer emits exactly one update
`processingStart - startTime` per entry whose two fields are both present and
nonzero (JavaScript-truthy); every other entry — in particular one missing a
field — is silently skipped and contributes nothing. -/
theorem fid_one_update_per_truthy_entry :
    (∀ l1 l2 : List FirstInputEntry, fidUpdates (l1 ++ l2) = fidUpdates l1 ++ fidUpdates l2)
    ∧ (∀ (e : FirstInputEntry) (p s : ℚ), e.processingStart = some p → e.startTime = some s →
        p ≠ 0 → s ≠ 0 → fidUpdates [e] = [p - s])
    ∧ (∀ e : FirstInputEntry,
        (truthyNum e.processingStart && truthyNum e.startTime) = false → fidUpdates [e] = [])
    ∧ (∀ entries : List FirstInputEntry,
        (fidUpdates entries).length
          = entries.countP fun e => truthyNum e.processingStart && truthyNum e.startTime) := by
  refine ⟨?_, ?_, ?_, fidUpdates_length⟩
  · intro l1 l2
    unfold fidUpdates
    exact List.filterMap_append l1 l2 _
  · intro e p s hp hs hpz hsz
    simp [fidUpdates, truthyNum, hp, hs, hpz, hsz]
  · intro e h
    simp only [fidUpdates, List.filterMap_cons, List.filterMap_nil, h]
    simp

theorem fid_one_update_per_truthy_entry_witness :
    (⟨some 5, some 2⟩ : FirstInputEntry).processingStart = some 5
    ∧ (⟨some 5, some 2⟩ : FirstInputEntry).startTime = some 2
    ∧ (5 : ℚ) ≠ 0 ∧ (2 : ℚ) ≠ 0
    ∧ fidUpdates [⟨some 5, some 2⟩] = [5 - 2] :=
  ⟨rfl, rfl, by decide, by decide,
   fid_one_update_per_truthy_entry.2.1 ⟨some 5, some 2⟩ 5 2 rfl rfl (by decide) (by decide)⟩

end PerfMon

namespace PerfMon

inductive ObserverKind
  | fcp | lcp | fid | cls
deriving DecidableEq

structure SessionState where
  connected : List ObserverKind
  observerRef : Option ObserverKind
  loadTimerPending : Bool
deriving DecidableEq

/-- Mounting the monitor effect. In an environment supporting
`PerformanceObserver`, `observeWebVitals` registers all four observers
(`fcpObserver.observe`, `lcpObserver.observe`, `fidObserver.observe`,
`clsObserver.observe`) but stores only the FCP observer in `observerRef`
("Store one for cleanup"). When `document.readyState` is not `"complete"`, a
`load` listener that will schedule a 1000 ms `setTimeout` is additionally
registered and its handle is kept nowhere. -/
def mount (observerSupported : Bool) (readyStateComplete : Bool) : SessionState :=
  if observerSupported then
    { connected := [.fcp, .lcp, .fid, .cls], observerRef := some .fcp,
      loadTimerPending := !readyStateComplete }
  else
    { connected := [], observerRef := none, loadTimerPending := !readyStateComplete }

/-- The `useEffect` cleanup: `if (observerRef.current) observerRef.current.disconnect()`
— it disconnects the single stored observer and touches nothing else. -/
def cleanup (s : SessionState) : SessionState :=
  match s.observerRef with
  | some k => { s with connected := s.connected.filter fun o => o != k }
  | none => s

/-- C4, evaluated at the failing input (a session mounted in a supporting
environment before the page finished loading): teardown disconnects only the
FCP observer stored in `observerRef` — the LCP, FID and CLS observers stay
registered and the pending load-timer path is not cancelled, contradicting
the claim that every subscription is unregistered and every timer
cancelled. -/
theorem cleanup_releases_only_fcp :
    (mount true false).connected = [.fcp, .lcp, .fid, .cls]
    ∧ (cleanup (mount true false)).connected = [.lcp, .fid, .cls]
    ∧ (cleanup (mount true false)).loadTimerPending = true
    ∧ (cleanup (mount true false)).connected ≠ [] := by
  refine ⟨rfl, rfl, rfl, ?_⟩
  decide

end PerfMon

namespace OptState

inductive DemoKey
  | a | b
deriving DecidableEq

/-- A partial object update over a record with keys `K` and values `V`:
present keys overwrite, absent keys are untouched. -/
def Patch (K V : Type) := K → Option V

/-- The JavaScript spread `{...p, ...q}` of two partial updates: a key set in
`q` wins, otherwise the binding of `p` survives. -/
def spreadPatch {K V : Type} (p q : Patch K V) : Patch K V :=
  fun k => match q k with
  | some v => some v
  | none => p k

/-- The JavaScript spread `{...s, ...p}` of a committed state and a partial
update. -/
def applyPatch {K V : Type} (s : K → V) (p : Patch K V) : K → V :=
  fun k => match p k with
  | some v => v
  | none => s k

/-- State of `useBatchedState`: the committed state, the
`pendingUpdatesRef` accumulator, and whether a flush timeout is currently
scheduled.  The code keeps at most one timeout handle, because every call
clears the previous timeout before scheduling a new one, so a `Bool`
suffices. -/
structure BatchedState (K V : Type) where
  state : K → V
  pendingUpdates : Patch K V
  flushScheduled : Bool

/-- `batchedSetState(updates)`: accumulate the updates into
`pendingUpdatesRef` (later keys win), clear any existing timeout, and
schedule the flush on the next tick. -/
def batchedSetState {K V : Type} (updates : Patch K V) (s : BatchedState K V) :
    BatchedState K V :=
  { state := s.state,
    pendingUpdates := spreadPatch s.pendingUpdates updates,
    flushScheduled := true }

/-- The scheduled flush firing on the next tick:
`setState(prev => ({...prev, ...pendingUpdatesRef.current}))` followed by
clearing the accumulator.  With no flush scheduled nothing happens. -/
def flushTick {K V : Type} (s : BatchedState K V) : BatchedState K V :=
  if s.flushScheduled then
    { state := applyPatch s.state s.pendingUpdates,
      pendingUpdates := fun _ => none,
      flushScheduled := false }
  else s

/-- The three updates of the batched-update example: `{a:1}`, `{b:2}`,
`{a:3}`. -/
def patchA1 : Patch DemoKey ℕ := fun k => match k with | .a => some 1 | .b => none

def patchB2 : Patch DemoKey ℕ := fun k => match k with | .a => none | .b => some 2

def patchA3 : Patch DemoKey ℕ := fun k => match k with | .a => some 3 | .b => none

/-- The batched-update example run: three updates submitted before the next
tick, then the single scheduled flush. -/
def demoRun : BatchedState DemoKey ℕ :=
  flushTick (batchedSetState patchA3 (batchedSetState patchB2 (batchedSetState patchA1
    { state := fun _ => 0, pendingUpdates := fun _ => none, flushScheduled := false })))

/-- C8: after submitting `{a:1}`, `{b:2}`, `{a:3}` before the next tick
exactly one flush is scheduled; after it fires the committed state is
`{a:3, b:2}` (last-write-wins per field), the accumulator is cleared, and a
further tick changes nothing; in general a flush merges the pending
accumulator into the committed state and clears the accumulator. -/
theorem batched_updates_coalesce :
    (batchedSetState patchA3 (batchedSetState patchB2 (batchedSetState patchA1
        { state := fun _ => 0, pendingUpdates := fun _ => none,
          flushScheduled := false }))).flushScheduled = true
    ∧ demoRun.state DemoKey.a = 3 ∧ demoRun.state DemoKey.b = 2
    ∧ demoRun.pendingUpdates DemoKey.a = none ∧ demoRun.pendingUpdates DemoKey.b = none
    ∧ demoRun.flushScheduled = false
    ∧ flushTick demoRun = demoRun
    ∧ (∀ (K V : Type) (s : BatchedState K V), s.flushScheduled = true →
        (flushTick s).state = applyPatch s.state s.pendingUpdates
        ∧ (flushTick s).pendingUpdates = (fun _ => none)
        ∧ (flushTick s).flushScheduled = false) := by
  refine ⟨rfl, rfl, rfl, rfl, rfl, rfl, rfl, ?_⟩
  intro K V s h
  unfold flushTick
  rw [if_pos h]
  exact ⟨rfl, rfl, rfl⟩

theorem batched_updates_coalesce_witness :
    (batchedSetState patchA1
        { state := fun _ => (0 : ℕ), pendingUpdates := fun _ => none,
          flushScheduled := false }).flushScheduled = true
    ∧ (flushTick (batchedSetState patchA1
        { state := fun _ => (0 : ℕ), pendingUpdates := fun _ => none,
          flushScheduled := false })).flushScheduled = false :=
  ⟨rfl, (batched_updates_coalesce.2.2.2.2.2.2.2 DemoKey ℕ
    (batchedSetState patchA1
      { state := fun _ => (0 : ℕ), pendingUpdates := fun _ => none,
        flushScheduled := false }) rfl).2.2⟩

end OptState

namespace OptState

inductive StateUpdate (T : Type)
  | direct (v : T)
  | fn (f : T → T)

/-- A React `setState` argument applied to the previous value: a plain value
replaces it, a functional update is applied to it. -/
def applyUpdate {T : Type} (u : StateUpdate T) (s : T) : T :=
  match u with
  | .direct v => v
  | .fn f => f s

/-- State of `useOptimizedState`: the immediate value (`state`), the delayed
value (`debouncedState`), and the pending debounce timeout, recorded as its
fire time together with the `value` argument closed over by the timeout
callback and the `state` binding that callback closed over — the committed
value at the render that produced the currently memoised `setOptimizedState`
callback (its `useCallback` dependencies are `[debounceMs, state]`). -/
structure DebounceState (T : Type) where
  state : T
  debouncedState : T
  timer : Option (ℕ × StateUpdate T × T)

/-- One `setOptimizedState(value)` call at time `t` through a callback that
closed over the committed state `c`: `setState(value)` updates the immediate
value, the existing timeout is cleared, and a new timeout is scheduled that
will run `setDebouncedState(typeof value === "function" ? value(state) :
value)` after `debounceMs`, where `state` refers to the closed-over `c`. -/
def setOptimizedState {T : Type} (debounceMs t : ℕ) (c : T) (u : StateUpdate T)
    (s : DebounceState T) : DebounceState T :=
  { state := applyUpdate u s.state,
    debouncedState := s.debouncedState,
    timer := some (t + debounceMs, u, c) }

/-- A pending timeout that is due by `now` fires: the delayed value becomes
the closed-over update applied to the closed-over state. -/
def fireIfDue {T : Type} (now : ℕ) (s : DebounceState T) : DebounceState T :=
  match s.timer with
  | some (ft, u, c) =>
      if ft ≤ now then
        { state := s.state, debouncedState := applyUpdate u c, timer := none }
      else s
  | none => s

/-- Quiescence: no further update arrives, so the pending timeout (if any)
eventually fires. -/
def settle {T : Type} (s : DebounceState T) : DebounceState T :=
  match s.timer with
  | some (_, u, c) =>
      { state := s.state, debouncedState := applyUpdate u c, timer := none }
  | none => s

/-- One browser task at time `t` delivering a burst of `setOptimizedState`
calls: timeouts due by `t` fire first; then every call of the burst runs
through the same memoised callback, which closed over the committed state as
of the render preceding the task (React re-renders, and `useCallback`
recreates the callback, only between tasks). -/
def runTick {T : Type} (debounceMs : ℕ) (s : DebounceState T)
    (tick : ℕ × List (StateUpdate T)) : DebounceState T :=
  let s1 := fireIfDue tick.1 s
  tick.2.foldl (fun st u => setOptimizedState debounceMs tick.1 s1.state u st) s1

/-- A whole `useOptimizedState` session: initial value, a sequence of tasks
at increasing times, then quiescence. -/
def runDebounce {T : Type} (debounceMs : ℕ) (init : T)
    (ticks : List (ℕ × List (StateUpdate T))) : DebounceState T :=
  settle (ticks.foldl (runTick debounceMs) ⟨init, init, none⟩)

/-- C7, evaluated on both inputs of the claim. Direct-value updates at
t = 0, 50, 100 ms with a 300 ms window behave as claimed: the surviving
timeout fires at t = 400 ms and the delayed value settles to the value
submitted at t = 100 ms. But for two functional updates `p => p + 1`
submitted in the same task from initial value 0, the immediate value settles
at 2 while the delayed value settles at 1: the timeout callback evaluates
`value(state)` against the stale closed-over `state`, not the immediate value
at timer-fire time. -/
theorem debounce_direct_example_and_stale_closure :
    (runDebounce 300 (0 : ℤ)
        [(0, [.direct 10]), (50, [.direct 20]), (100, [.direct 30])]).debouncedState = 30
    ∧ (runDebounce 300 (0 : ℤ)
        [(0, [.direct 10]), (50, [.direct 20]), (100, [.direct 30])]).state = 30
    ∧ (([(0, [.direct 10]), (50, [.direct 20]), (100, [.direct 30])] :
          List (ℕ × List (StateUpdate ℤ))).foldl (runTick 300) ⟨0, 0, none⟩).timer
        = some (400, .direct 30, 20)
    ∧ (runDebounce 300 (0 : ℤ) [(0, [.fn (fun p => p + 1), .fn (fun p => p + 1)])]).state = 2
    ∧ (runDebounce 300 (0 : ℤ)
        [(0, [.fn (fun p => p + 1), .fn (fun p => p + 1)])]).debouncedState = 1
    ∧ (runDebounce 300 (0 : ℤ)
        [(0, [.fn (fun p => p + 1), .fn (fun p => p + 1)])]).debouncedState
      ≠ (runDebounce 300 (0 : ℤ)
        [(0, [.fn (fun p => p + 1), .fn (fun p => p + 1)])]).state := by
  refine ⟨rfl, rfl, rfl, rfl, rfl, ?_⟩
  decide

end OptState
